import Mathlib

/-!
Verification of the module persistence subsystem of EASY_WAY_A1.

The development shallowly embeds the backend module repository
(`backend/database/moduleRepository.js`), the seeding routine
(`backend/database/seedData.js`), the HTTP handlers (`backend/server.js`)
and the client API wrapper (`src/services/moduleApi.ts`).  The SQLite
store is modelled as a list of flat rows plus an AUTOINCREMENT counter;
timestamps are natural numbers supplied by the caller (the `now`
argument stands for `CURRENT_TIMESTAMP` at the moment the statement
runs).  An operation that rejects (a JavaScript promise rejection)
returns `Except.error` together with the unchanged store.
-/

namespace EasyWay

/-- Models JavaScript `String.prototype.trim` on the character list of a
string: leading and trailing whitespace removed. -/
def jsTrim (s : String) : String :=
  ⟨((s.data.dropWhile Char.isWhitespace).reverse.dropWhile Char.isWhitespace).reverse⟩

/-- Models the JavaScript expression `x || null` applied to an optional
string field: an absent value or the empty string (both falsy) become
`null` (`none`); any other string is kept. -/
def jsOrNull : Option String → Option String
  | some s => if s = "" then none else some s
  | none => none

/-- Models JavaScript `String.prototype.includes`: `sub` occurs
contiguously inside `s`. -/
def jsIncludes (s sub : String) : Bool :=
  decide (sub.data <:+: s.data)

/-- Nested per-language content, as carried on the wire and in memory
(`ModuleContent` in `types.ts`): a display name plus two optional
fields. -/
structure ModuleContent where
  name : String
  description : Option String
  inputPlaceholder : Option String
deriving DecidableEq

/-- The request payload for create/update (`{prompt, en, kn}`). -/
structure ModuleData where
  prompt : String
  en : ModuleContent
  kn : ModuleContent
deriving DecidableEq

/-- The nested entity shape returned by every repository read
(the object literals built in `moduleRepository.js`). -/
structure Module where
  id : Int
  prompt : String
  en : ModuleContent
  kn : ModuleContent
  createdAt : Nat
  updatedAt : Nat
deriving DecidableEq

/-- One flat row of the `modules` table
(schema in `backend/database/db.js`). -/
structure ModuleRow where
  id : Int
  prompt : String
  en_name : String
  en_description : Option String
  en_input_placeholder : Option String
  kn_name : String
  kn_description : Option String
  kn_input_placeholder : Option String
  created_at : Nat
  updated_at : Nat
deriving DecidableEq

/-- The store: the table rows in rowid (insertion) order plus the
AUTOINCREMENT counter that will be handed to the next insert. -/
structure DB where
  rows : List ModuleRow
  nextId : Int
deriving DecidableEq

/-- A brand-new store: empty table, ids start at 1. -/
def emptyDB : DB := ⟨[], 1⟩

/-- The flat-row to nested-entity translation performed by every read
in `moduleRepository.js`. -/
def rowToModule (r : ModuleRow) : Module :=
  { id := r.id
    prompt := r.prompt
    en := ⟨r.en_name, r.en_description, r.en_input_placeholder⟩
    kn := ⟨r.kn_name, r.kn_description, r.kn_input_placeholder⟩
    createdAt := r.created_at
    updatedAt := r.updated_at }

/-- The field validation shared by `createModule` and `updateModule` in
`moduleRepository.js`: prompt, then English name, then Kannada name,
each required non-empty after trimming; the first failing check decides
the message.  (The JavaScript falsiness test `!x` and the
`typeof x !== 'string'` test are subsumed: in the typed embedding the
fields are strings, and the empty string is the only falsy string.) -/
def validateModuleData (d : ModuleData) : Option String :=
  if jsTrim d.prompt = "" then some "Module prompt is required"
  else if jsTrim d.en.name = "" then some "English name is required"
  else if jsTrim d.kn.name = "" then some "Kannada name is required"
  else none

/-- The row built by the INSERT in `createModule`: trimmed prompt and
names, `x || null` on the optional fields, id from AUTOINCREMENT, both
timestamps defaulted to the current time by the same statement. -/
def newRow (db : DB) (d : ModuleData) (now : Nat) : ModuleRow :=
  { id := db.nextId
    prompt := jsTrim d.prompt
    en_name := jsTrim d.en.name
    en_description := jsOrNull d.en.description
    en_input_placeholder := jsOrNull d.en.inputPlaceholder
    kn_name := jsTrim d.kn.name
    kn_description := jsOrNull d.kn.description
    kn_input_placeholder := jsOrNull d.kn.inputPlaceholder
    created_at := now
    updated_at := now }

/-- `createModule` of `moduleRepository.js`: validate, INSERT, then
re-read the inserted row by `this.lastID` and return it mapped to the
nested shape. -/
def createModule (db : DB) (d : ModuleData) (now : Nat) :
    Except String Module × DB :=
  match validateModuleData d with
  | some e => (.error e, db)
  | none =>
    let row := newRow db d now
    let db' : DB := ⟨db.rows ++ [row], db.nextId + 1⟩
    match db'.rows.find? (fun r => r.id == row.id) with
    | none => (.error "Module created but failed to retrieve", db')
    | some r => (.ok (rowToModule r), db')

/-- The SET clause of the UPDATE statement in `updateModule`: the seven
content columns are replaced and `updated_at` is set to
`CURRENT_TIMESTAMP`; `id` and `created_at` are not mentioned by the
statement and keep their values. -/
def updRow (d : ModuleData) (now : Nat) (r : ModuleRow) : ModuleRow :=
  { r with
    prompt := jsTrim d.prompt
    en_name := jsTrim d.en.name
    en_description := jsOrNull d.en.description
    en_input_placeholder := jsOrNull d.en.inputPlaceholder
    kn_name := jsTrim d.kn.name
    kn_description := jsOrNull d.kn.description
    kn_input_placeholder := jsOrNull d.kn.inputPlaceholder
    updated_at := now }

/-- `updateModule` of `moduleRepository.js`: id validation
(`!id || !Number.isInteger(Number(id)) || Number(id) <= 0`, which for
an integer argument is `id <= 0`), field validation, existence check,
UPDATE ... WHERE id = ?, then re-read and return the mapped entity. -/
def updateModule (db : DB) (id : Int) (d : ModuleData) (now : Nat) :
    Except String Module × DB :=
  if id ≤ 0 then (.error "Valid module ID is required", db)
  else match validateModuleData d with
  | some e => (.error e, db)
  | none =>
    match db.rows.find? (fun r => r.id == id) with
    | none => (.error ("Module with ID " ++ toString id ++ " not found"), db)
    | some _ =>
      let db' : DB := ⟨db.rows.map (fun r => if r.id = id then updRow d now r else r), db.nextId⟩
      match db'.rows.find? (fun r => r.id == id) with
      | none => (.error "Module updated but failed to retrieve", db')
      | some r => (.ok (rowToModule r), db')

/-- The `this.changes === 0` test after the DELETE statement in
`deleteModule`. -/
def deleteOutcome (changes : Nat) : Except String Bool :=
  if changes = 0 then .error "Module deletion failed - no rows affected"
  else .ok true

/-- `deleteModule` of `moduleRepository.js`: id validation, existence
check (rejecting with a not-found message and issuing no DELETE when no
row matches), DELETE ... WHERE id = ?, then the affected-rows check. -/
def deleteModule (db : DB) (id : Int) : Except String Bool × DB :=
  if id ≤ 0 then (.error "Valid module ID is required", db)
  else match db.rows.find? (fun r => r.id == id) with
  | none => (.error ("Module with ID " ++ toString id ++ " not found"), db)
  | some _ =>
    let rows' := db.rows.filter (fun r => !(r.id == id))
    match deleteOutcome (db.rows.length - rows'.length) with
    | .error e => (.error e, ⟨rows', db.nextId⟩)
    | .ok b => (.ok b, ⟨rows', db.nextId⟩)

/-- The comparison realised by `ORDER BY created_at DESC`: rows with
the larger `created_at` come first. -/
def byCreatedDesc (a b : ModuleRow) : Prop :=
  b.created_at ≤ a.created_at

instance : DecidableRel byCreatedDesc := fun a b =>
  Nat.decLe b.created_at a.created_at

instance : IsTotal ModuleRow byCreatedDesc :=
  ⟨fun a b => Nat.le_total b.created_at a.created_at⟩

instance : IsTrans ModuleRow byCreatedDesc :=
  ⟨fun _ _ _ hab hbc => Nat.le_trans hbc hab⟩

/-- The `ORDER BY created_at DESC` of the SELECT in `getAllModules`.
SQLite leaves the relative order of equal keys unspecified; any sort
realising the comparison is a faithful model, and the claims about
ordering only ever compare rows with distinct timestamps. -/
def sortRowsDesc (l : List ModuleRow) : List ModuleRow :=
  List.insertionSort byCreatedDesc l

/-- `getAllModules` of `moduleRepository.js`: SELECT every row ordered
by creation time descending, each mapped to the nested shape.  Errors
can only come from the storage engine, which the embedding does not
fail. -/
def getAllModules (db : DB) : List Module :=
  (sortRowsDesc db.rows).map rowToModule

/-- `getModuleById` of `moduleRepository.js`: id validation, then a
point SELECT; absence resolves `null` (`none`), it does not reject. -/
def getModuleById (db : DB) (id : Int) : Except String (Option Module) :=
  if id ≤ 0 then .error "Valid module ID is required"
  else .ok ((db.rows.find? (fun r => r.id == id)).map rowToModule)

/-- The three fixed default modules of `seedData.js`. -/
def defaultModules : List ModuleData :=
  [ { prompt := "Please summarize the following text into clear, concise bullet points highlighting the main ideas and key information:"
      en := { name := "Text Summarizer"
              description := some "Summarize long text content into key points"
              inputPlaceholder := some "Enter the text you want to summarize..." }
      kn := { name := "ಪಠ್ಯ ಸಾರಾಂಶ"
              description := some "ದೀರ್ಘ ಪಠ್ಯ ವಿಷಯವನ್ನು ಪ್ರಮುಖ ಅಂಶಗಳಾಗಿ ಸಾರಾಂಶಗೊಳಿಸಿ"
              inputPlaceholder := some "ನೀವು ಸಾರಾಂಶ ಮಾಡಲು ಬಯಸುವ ಪಠ್ಯವನ್ನು ನಮೂದಿಸಿ..." } }
  , { prompt := "Write a professional email based on the following requirements. Make it clear, polite, and well-structured:"
      en := { name := "Email Writer"
              description := some "Generate professional emails from brief descriptions"
              inputPlaceholder := some "Describe the email you need (purpose, recipient, tone, key points)..." }
      kn := { name := "ಇಮೇಲ್ ರಚನೆಕಾರ"
              description := some "ಸಂಕ್ಷಿಪ್ತ ವಿವರಣೆಗಳಿಂದ ವೃತ್ತಿಪರ ಇಮೇಲ್‌ಗಳನ್ನು ರಚಿಸಿ"
              inputPlaceholder := some "ನಿಮಗೆ ಬೇಕಾದ ಇಮೇಲ್ ಅನ್ನು ವಿವರಿಸಿ (ಉದ್ದೇಶ, ಸ್ವೀಕರಿಸುವವರು, ಧ್ವನಿ, ಪ್ರಮುಖ ಅಂಶಗಳು)..." } }
  , { prompt := "Analyze the following image and write a detailed description about it:"
      en := { name := "Image Analysis"
              description := some "Analyze an image and generate a description"
              inputPlaceholder := some "Upload an image for analysis..." }
      kn := { name := "ಚಿತ್ರ ವಿಶ್ಲೇಷಣೆ"
              description := some "ಚಿತ್ರವನ್ನು ವಿಶ್ಲೇಷಿಸಿ ಮತ್ತು ವಿವರಣೆಯನ್ನು ರಚಿಸಿ"
              inputPlaceholder := some "ವಿಶ್ಲೇಷಣೆಗಾಗಿ ಚಿತ್ರವನ್ನು ಅಪ್‌ಲೋಡ್ ಮಾಡಿ..." } } ]

/-- `isDatabaseEmpty` of `seedData.js`: true iff `getAllModules` yields
zero modules. -/
def isDatabaseEmpty (db : DB) : Bool :=
  (getAllModules db).length == 0

/-- The sequential creation loop of `seedDatabase`: each module is
created in order; the first rejection stops the loop and propagates,
leaving the rows created so far in the store.  `clock i` is the time
at which the i-th creation runs. -/
def seedLoop (db : DB) (mods : List ModuleData) (clock : Nat → Nat) (i : Nat) :
    Except String (List Module) × DB :=
  match mods with
  | [] => (.ok [], db)
  | m :: rest =>
    match createModule db m (clock i) with
    | (.error e, dbf) => (.error e, dbf)
    | (.ok cm, db') =>
      match seedLoop db' rest clock (i + 1) with
      | (.error e, db'') => (.error e, db'')
      | (.ok cms, db'') => (.ok (cm :: cms), db'')

/-- `seedDatabase` of `seedData.js`: if the store is non-empty, skip
seeding and resolve an empty list; otherwise create the defaults in
sequence.  The surrounding catch rewraps any failure as the generic
message before rethrowing. -/
def seedDatabase (db : DB) (clock : Nat → Nat) :
    Except String (List Module) × DB :=
  if isDatabaseEmpty db then
    match seedLoop db defaultModules clock 0 with
    | (.error _, db') => (.error "Database seeding failed", db')
    | (.ok ms, db') => (.ok ms, db')
  else (.ok [], db)

/-- Running `seedDatabase` n times in a row, keeping only the store. -/
def seedIter (clock : Nat → Nat) (db : DB) : Nat → DB
  | 0 => db
  | n + 1 => seedIter clock (seedDatabase db clock).2 n

/-- Well-formedness of the store, maintained by the schema's
AUTOINCREMENT primary key: the counter is positive, every row id is
positive and below the counter, and row ids are pairwise distinct. -/
def DB.WF (db : DB) : Prop :=
  0 < db.nextId ∧ (∀ r ∈ db.rows, 0 < r.id ∧ r.id < db.nextId) ∧
    (db.rows.map (fun r => r.id)).Nodup

instance (db : DB) : Decidable db.WF := by
  unfold DB.WF; infer_instance

/-- Value of a list of decimal digit characters. -/
def digitsToNat (ds : List Char) : Nat :=
  ds.foldl (fun a c => a * 10 + (c.toNat - 48)) 0

/-- Shared tail of `jsParseInt`: longest leading run of decimal digits,
`NaN` (`none`) when there is none. -/
def jsParseIntDigits (sign : Int) (cs : List Char) : Option Int :=
  let ds := cs.takeWhile Char.isDigit
  if ds.isEmpty then none else some (sign * (digitsToNat ds : Int))

/-- Models ECMAScript `parseInt(s)` with the default radix on decimal
input: skip leading whitespace, an optional sign, then the longest
decimal-digit run; `NaN` (`none`) when no digit follows.  The
`0x`-prefix hexadecimal special case of `parseInt` is not modelled; no
input considered here carries it. -/
def jsParseInt (s : String) : Option Int :=
  match s.data.dropWhile Char.isWhitespace with
  | '-' :: rest => jsParseIntDigits (-1) rest
  | '+' :: rest => jsParseIntDigits 1 rest
  | cs => jsParseIntDigits 1 cs

/-- Models the repository's own id gate
`!id || !Number.isInteger(Number(id)) || Number(id) <= 0` applied to a
raw string: accepted only when the string is non-empty and, after
trimming, is a signed decimal integer literal whose value is positive
(`Number` of any other string considered here is `NaN` or not an
integer, and `Number.isInteger` then fails). -/
def repoAcceptsIdString (s : String) : Bool :=
  if s = "" then false
  else
    let t := ((s.data.dropWhile Char.isWhitespace).reverse.dropWhile Char.isWhitespace).reverse
    match t with
    | [] => false
    | '-' :: _ => false
    | '+' :: rest => (!rest.isEmpty && rest.all Char.isDigit) && decide (0 < digitsToNat rest)
    | _ => t.all Char.isDigit && decide (0 < digitsToNat t)

/-- One HTTP response of `server.js`: status code plus the uniform
envelope `{success, data?, error?, message?}`. -/
structure HttpResult where
  status : Nat
  success : Bool
  data : Option Module
  error : Option String
  message : Option String
deriving DecidableEq

/-- The catch-block pattern matching shared by the PUT and DELETE
handlers in `server.js`: messages containing "not found" map to 404,
messages containing "required" (or "is required") map to 400 carrying
the message, anything else maps to 500 with the route's sanitized
fallback text. -/
def classifyRepoError (e : String) (fallback : String) : Nat × String :=
  if jsIncludes e "not found" then (404, e)
  else if jsIncludes e "required" || jsIncludes e "is required" then (400, e)
  else (500, fallback)

/-- The 400 response for a bad `:id` path parameter. -/
def badIdResult : HttpResult :=
  ⟨400, false, none, some "Valid module ID is required", none⟩

/-- The part of the DELETE handler after the id gate: run the
repository delete and translate its outcome. -/
def deleteRespond (db : DB) (id : Int) : HttpResult × DB :=
  match deleteModule db id with
  | (.ok _, db') => (⟨200, true, none, none, some "Module deleted successfully"⟩, db')
  | (.error e, db') =>
    let (st, msg) := classifyRepoError e "Failed to delete module"
    (⟨st, false, none, some msg, none⟩, db')

/-- The DELETE /api/modules/:id handler of `server.js`:
`parseInt(req.params.id)`, reject with 400 when `NaN` or non-positive,
otherwise delegate to the repository. -/
def deleteHandler (db : DB) (idParam : String) : HttpResult × DB :=
  match jsParseInt idParam with
  | none => (badIdResult, db)
  | some i => if i ≤ 0 then (badIdResult, db) else deleteRespond db i

/-- The part of the PUT handler after the id gate: body presence check,
then the repository update and outcome translation. -/
def putRespond (db : DB) (id : Int) (body : Option ModuleData) (now : Nat) :
    HttpResult × DB :=
  match body with
  | none => (⟨400, false, none, some "Module data is required", none⟩, db)
  | some d =>
    match updateModule db id d now with
    | (.ok m, db') => (⟨200, true, some m, none, none⟩, db')
    | (.error e, db') =>
      let (st, msg) := classifyRepoError e "Failed to update module"
      (⟨st, false, none, some msg, none⟩, db')

/-- The PUT /api/modules/:id handler of `server.js`. -/
def putHandler (db : DB) (idParam : String) (body : Option ModuleData) (now : Nat) :
    HttpResult × DB :=
  match jsParseInt idParam with
  | none => (badIdResult, db)
  | some i => if i ≤ 0 then (badIdResult, db) else putRespond db i body now

/-- The typed error of the client wrapper (`ApiError` in
`moduleApi.ts`), reduced to the `(message, status)` pair the claims are
about. -/
structure ApiFailure where
  message : String
  status : Nat
deriving DecidableEq

/-- The fixed client-side message for a transport-level failure. -/
def networkErrorMessage : String :=
  "Network error: Unable to connect to server. Please check your connection."

/-- The response envelope as parsed by the client
(`ApiResponse<T>` in `moduleApi.ts`). -/
structure Envelope (α : Type) where
  success : Bool
  data : Option α
  error : Option String

/-- What `fetch` handed back to `apiRequest`: either a transport-level
failure (the request never reached the server; `fetch` rejected with a
`TypeError` mentioning `fetch`), or an HTTP response whose JSON body
parsed into the envelope. -/
inductive FetchOutcome (α : Type) where
  | networkFailure : FetchOutcome α
  | response (status : Nat) (statusText : String) (body : Envelope α) : FetchOutcome α

/-- Models `x || fallback` on an optional string. -/
def jsOrString (o : Option String) (fallback : String) : String :=
  match o with
  | some s => if s = "" then fallback else s
  | none => fallback

/-- `apiRequest` of `moduleApi.ts`: a non-ok HTTP status throws the
envelope's error (or the `HTTP <status>: <statusText>` line) with the
response status; an ok status whose envelope has `success:false`
throws the envelope's error (or "API request failed") with the
response status; a transport failure throws the fixed network message
with status 0; otherwise the `data` field is returned. -/
def apiRequest {α : Type} (o : FetchOutcome α) : Except ApiFailure (Option α) :=
  match o with
  | .networkFailure => .error ⟨networkErrorMessage, 0⟩
  | .response status statusText body =>
    if 200 ≤ status ∧ status < 300 then
      if body.success then .ok body.data
      else .error ⟨jsOrString body.error "API request failed", status⟩
    else
      .error ⟨jsOrString body.error ("HTTP " ++ toString status ++ ": " ++ statusText), status⟩

/-- The client-side pre-flight validation of `createModule` in
`moduleApi.ts`: prompt, then English name, then Kannada name, each
rejected as an `ApiError` with status 400 when empty after trimming. -/
def clientValidateCreate (d : ModuleData) : Option ApiFailure :=
  if jsTrim d.prompt = "" then some ⟨"Prompt is required", 400⟩
  else if jsTrim d.en.name = "" then some ⟨"English name is required", 400⟩
  else if jsTrim d.kn.name = "" then some ⟨"Kannada name is required", 400⟩
  else none

/-- The client-side pre-flight validation of `updateModule` in
`moduleApi.ts`: the positive-id check first, then the same three field
checks as the create path. -/
def clientValidateUpdate (id : Int) (d : ModuleData) : Option ApiFailure :=
  if id ≤ 0 then some ⟨"Valid module ID is required", 400⟩
  else if jsTrim d.prompt = "" then some ⟨"Prompt is required", 400⟩
  else if jsTrim d.en.name = "" then some ⟨"English name is required", 400⟩
  else if jsTrim d.kn.name = "" then some ⟨"Kannada name is required", 400⟩
  else none

/-- The row rewrite performed by the UPDATE statement on the whole
table: only rows matching the WHERE clause change. -/
def updRowIf (id : Int) (d : ModuleData) (now : Nat) (r : ModuleRow) : ModuleRow :=
  if r.id = id then updRow d now r else r

/-- One repository write against the store: the outcome of a create, an
update or a delete, whatever its arguments (seeding only performs
creates, so seeded stores are reachable too). -/
inductive Step : DB → DB → Prop where
  | create (db : DB) (d : ModuleData) (now : Nat) : Step db (createModule db d now).2
  | update (db : DB) (id : Int) (d : ModuleData) (now : Nat) :
      Step db (updateModule db id d now).2
  | del (db : DB) (id : Int) : Step db (deleteModule db id).2

/-- Any number of repository writes. -/
def Reachable : DB → DB → Prop := Relation.ReflTransGen Step

/-! ### Concrete inputs used by the witnesses and counterexamples -/

/-- A minimal valid creation payload. -/
def c1d0 : ModuleData := ⟨"p", ⟨"e", none, none⟩, ⟨"k", none, none⟩⟩

/-- The store after creating `c1d0` at time 0 in a fresh store. -/
def c1db : DB := (createModule emptyDB c1d0 0).2

/-- The single row of `c1db`. -/
def c1row : ModuleRow := newRow emptyDB c1d0 0

/-- A valid replacement payload. -/
def c1upd : ModuleData := ⟨"q", ⟨"e2", none, none⟩, ⟨"k2", none, none⟩⟩

/-- The entity returned by updating module 1 of `c1db` at time 5. -/
def c1res : Module := rowToModule (updRow c1upd 5 c1row)

/-- The store after that update. -/
def c1db2 : DB :=
  ⟨c1db.rows.map (fun r => if r.id = 1 then updRow c1upd 5 r else r), c1db.nextId⟩

/-- A creation payload whose prompt carries surrounding whitespace. -/
def c4input : ModuleData := ⟨" x ", ⟨"n", none, none⟩, ⟨"k", none, none⟩⟩

/-- A creation payload exercising trimming and empty-optional
normalization. -/
def c4wit : ModuleData :=
  ⟨"p ", ⟨" e", some "", none⟩, ⟨"k", none, some "ph"⟩⟩

/-- The entity created from `c4wit` at time 0 in a fresh store. -/
def c4m : Module := rowToModule (newRow emptyDB c4wit 0)

/-- The store left by that creation. -/
def c4db : DB := ⟨emptyDB.rows ++ [newRow emptyDB c4wit 0], emptyDB.nextId + 1⟩

/-- The deterministic clock used for the seeded scenario: the i-th
creation happens at time i. -/
def seedClock : Nat → Nat := fun i => i

/-- One full seeding run against a fresh store. -/
def seeded : Except String (List Module) × DB := seedDatabase emptyDB seedClock

/-- The modules that run created, in creation order. -/
def seededModules : List Module := seeded.1.toOption.getD []

/-- The store that run left behind. -/
def seededDB : DB := seeded.2

/-- A store holding a single module with id 5 (and the counter past
it), as left behind by four deletions after five creations. -/
def row5 : ModuleRow := ⟨5, "p", "e", none, none, "k", none, none, 0, 0⟩

/-- The store containing exactly `row5`. -/
def db10 : DB := ⟨[row5], 6⟩

/-- A replacement payload for the PUT scenario. -/
def d10 : ModuleData := ⟨"p2", ⟨"e2", none, none⟩, ⟨"k2", none, none⟩⟩

/-- The module returned by the first creation of the C7 scenario. -/
def c7m0 : Module := rowToModule (newRow emptyDB c1d0 0)

/-- The module returned by a later creation against `c1db`. -/
def c7m : Module := rowToModule (newRow c1db c1upd 3)

/-- A payload with a valid prompt and empty names, for comparing client
and server validation. -/
def d9 : ModuleData := ⟨"p", ⟨"", none, none⟩, ⟨"", none, none⟩⟩

/-! ### Characterization lemmas for the repository operations -/

/-- A failing validation rejects `createModule` before the INSERT: the
store comes back untouched. -/
theorem createModule_validate_error (db : DB) (d : ModuleData) (now : Nat)
    (e : String) (hv : validateModuleData d = some e) :
    createModule db d now = (.error e, db) := by
  simp [createModule, hv]

/-- On a well-formed store the freshly inserted row is the one the
re-read by `lastID` finds. -/
theorem find?_append_newRow (db : DB) (d : ModuleData) (now : Nat) (hwf : db.WF) :
    (db.rows ++ [newRow db d now]).find?
      (fun r => r.id == (newRow db d now).id) = some (newRow db d now) := by
  obtain ⟨-, hbound, -⟩ := hwf
  have h1 : db.rows.find? (fun r => r.id == (newRow db d now).id) = none := by
    rw [List.find?_eq_none]
    intro r hr
    have hlt := (hbound r hr).2
    simp only [newRow, beq_iff_eq]
    exact fun h => absurd h (Int.ne_of_lt hlt)
  rw [List.find?_append, h1]
  simp [List.find?_cons]

/-- On a well-formed store a valid `createModule` appends exactly the
new row, bumps the id counter, and returns the mapped new row (the
post-insert re-read finds it). -/
theorem createModule_ok (db : DB) (d : ModuleData) (now : Nat)
    (hwf : db.WF) (hv : validateModuleData d = none) :
    createModule db d now =
      (.ok (rowToModule (newRow db d now)),
        ⟨db.rows ++ [newRow db d now], db.nextId + 1⟩) := by
  simp [createModule, hv, find?_append_newRow db d now hwf]

/-- Whatever validation says, `createModule` either leaves the store
unchanged or appends the one new row. -/
theorem createModule_snd (db : DB) (d : ModuleData) (now : Nat) :
    (createModule db d now).2 = db ∨
      (createModule db d now).2 = ⟨db.rows ++ [newRow db d now], db.nextId + 1⟩ := by
  cases hv : validateModuleData d with
  | some e =>
    rw [createModule_validate_error db d now e hv]
    exact Or.inl rfl
  | none =>
    right
    simp only [createModule, hv]
    split <;> rfl

/-- Point lookup commutes with an id-preserving row rewrite. -/
theorem find?_map_of_id_eq (l : List ModuleRow) (id : Int)
    (g : ModuleRow → ModuleRow) (hg : ∀ r, (g r).id = r.id) :
    (l.map g).find? (fun r => r.id == id) =
      (l.find? (fun r => r.id == id)).map g := by
  induction l with
  | nil => rfl
  | cons x xs ih =>
    by_cases hx : x.id = id
    · simp [List.find?_cons, hg, hx]
    · simp [List.find?_cons, hg, hx, ih]

theorem updRowIf_id (id : Int) (d : ModuleData) (now : Nat) (r : ModuleRow) :
    (updRowIf id d now r).id = r.id := by
  unfold updRowIf updRow
  split <;> rfl

/-- A valid `updateModule` on a present id rewrites exactly the
matching rows and returns the rewritten row it re-reads. -/
theorem updateModule_ok (db : DB) (id : Int) (d : ModuleData) (now : Nat)
    (r0 : ModuleRow) (hid : 0 < id) (hv : validateModuleData d = none)
    (hfind : db.rows.find? (fun r => r.id == id) = some r0) :
    updateModule db id d now =
      (.ok (rowToModule (updRow d now r0)),
        ⟨db.rows.map (updRowIf id d now), db.nextId⟩) := by
  have hr0 : r0.id = id := by
    have := List.find?_some hfind
    simpa [beq_iff_eq] using this
  have hre : (db.rows.map (fun r => if r.id = id then updRow d now r else r)).find?
      (fun r => r.id == id) = some (updRow d now r0) := by
    rw [find?_map_of_id_eq db.rows id _ (fun r => by split <;> rfl), hfind]
    simp [hr0]
  have hnotle : ¬ id ≤ 0 := not_le.mpr hid
  simp only [updateModule, if_neg hnotle, hv, hfind]
  rw [hre]
  rfl

/-- `updateModule` rejecting leaves the store unchanged; succeeding
rewrites rows in place; the id counter is never touched. -/
theorem updateModule_snd (db : DB) (id : Int) (d : ModuleData) (now : Nat) :
    (updateModule db id d now).2 = db ∨
      (updateModule db id d now).2 =
        ⟨db.rows.map (updRowIf id d now), db.nextId⟩ := by
  unfold updateModule
  by_cases hid : id ≤ 0
  · simp [hid]
  · simp only [if_neg hid]
    cases hv : validateModuleData d with
    | some e => exact Or.inl rfl
    | none =>
      cases hfind : db.rows.find? (fun r => r.id == id) with
      | none => exact Or.inl rfl
      | some r0 =>
        simp only [updRowIf]
        cases hre : (db.rows.map (fun r => if r.id = id then updRow d now r else r)).find?
            (fun r => r.id == id) with
        | none => exact Or.inr rfl
        | some r => exact Or.inr rfl

/-- `deleteModule` rejecting before the DELETE leaves the store
unchanged; past the existence check the matching rows are removed; the
id counter is never touched. -/
theorem deleteModule_snd (db : DB) (id : Int) :
    (deleteModule db id).2 = db ∨
      (deleteModule db id).2 =
        ⟨db.rows.filter (fun r => !(r.id == id)), db.nextId⟩ := by
  unfold deleteModule
  by_cases hid : id ≤ 0
  · simp [hid]
  · simp only [if_neg hid]
    cases hfind : db.rows.find? (fun r => r.id == id) with
    | none => exact Or.inl rfl
    | some r0 =>
      cases h : deleteOutcome
          (db.rows.length - (db.rows.filter (fun r => !(r.id == id))).length) with
      | error e => exact Or.inr rfl
      | ok b => exact Or.inr rfl

/-! ### Preservation of the store invariant and id monotonicity -/

theorem WF_createModule (db : DB) (d : ModuleData) (now : Nat) (hwf : db.WF) :
    (createModule db d now).2.WF := by
  rcases createModule_snd db d now with h | h <;> rw [h]
  · exact hwf
  · obtain ⟨hpos, hbound, hnodup⟩ := hwf
    refine ⟨show (0:Int) < db.nextId + 1 by omega, ?_, ?_⟩
    · intro r hr
      show 0 < r.id ∧ r.id < db.nextId + 1
      rcases List.mem_append.mp hr with hr | hr
      · have := hbound r hr; omega
      · rcases List.mem_singleton.mp hr with rfl
        exact ⟨hpos, by simp [newRow]⟩
    · simp only [List.map_append, List.map_cons, List.map_nil]
      rw [List.nodup_append]
      refine ⟨hnodup, List.nodup_singleton _, ?_⟩
      intro a ha hb
      rcases List.mem_map.mp ha with ⟨r, hr, rfl⟩
      have := (hbound r hr).2
      simp only [newRow] at hb
      rcases List.mem_singleton.mp hb with h
      omega

theorem createModule_nextId_le (db : DB) (d : ModuleData) (now : Nat) :
    db.nextId ≤ (createModule db d now).2.nextId := by
  rcases createModule_snd db d now with h | h
  · rw [h]
  · rw [h]
    simp

theorem WF_updateModule (db : DB) (id : Int) (d : ModuleData) (now : Nat)
    (hwf : db.WF) : (updateModule db id d now).2.WF := by
  rcases updateModule_snd db id d now with h | h <;> rw [h]
  · exact hwf
  · obtain ⟨hpos, hbound, hnodup⟩ := hwf
    have hids : (db.rows.map (updRowIf id d now)).map (fun r => r.id) =
        db.rows.map (fun r => r.id) := by
      rw [List.map_map]
      exact List.map_congr_left (fun r _ => updRowIf_id id d now r)
    refine ⟨hpos, ?_, by rw [hids]; exact hnodup⟩
    intro r hr
    rcases List.mem_map.mp hr with ⟨r0, hr0, rfl⟩
    rw [updRowIf_id]
    exact hbound r0 hr0

theorem updateModule_nextId (db : DB) (id : Int) (d : ModuleData) (now : Nat) :
    (updateModule db id d now).2.nextId = db.nextId := by
  rcases updateModule_snd db id d now with h | h <;> rw [h]

theorem WF_deleteModule (db : DB) (id : Int) (hwf : db.WF) :
    (deleteModule db id).2.WF := by
  rcases deleteModule_snd db id with h | h <;> rw [h]
  · exact hwf
  · obtain ⟨hpos, hbound, hnodup⟩ := hwf
    refine ⟨hpos, ?_, ?_⟩
    · intro r hr
      exact hbound r (List.mem_of_mem_filter hr)
    · exact List.Nodup.sublist ((List.filter_sublist db.rows).map _) hnodup

theorem deleteModule_nextId (db : DB) (id : Int) :
    (deleteModule db id).2.nextId = db.nextId := by
  rcases deleteModule_snd db id with h | h <;> rw [h]

theorem step_wf_nextId {a b : DB} (h : Step a b) (hwf : a.WF) :
    b.WF ∧ a.nextId ≤ b.nextId := by
  cases h with
  | create d now => exact ⟨WF_createModule a d now hwf, createModule_nextId_le a d now⟩
  | update id d now =>
    exact ⟨WF_updateModule a id d now hwf, le_of_eq (updateModule_nextId a id d now).symm⟩
  | del id => exact ⟨WF_deleteModule a id hwf, le_of_eq (deleteModule_nextId a id).symm⟩

theorem reachable_wf_nextId {a b : DB} (h : Reachable a b) (hwf : a.WF) :
    b.WF ∧ a.nextId ≤ b.nextId := by
  induction h with
  | refl => exact ⟨hwf, le_refl _⟩
  | tail _ hstep ih =>
    obtain ⟨hwf', hle⟩ := ih
    obtain ⟨hwf'', hle'⟩ := step_wf_nextId hstep hwf'
    exact ⟨hwf'', le_trans hle hle'⟩

/-! ### Seeding lemmas -/

theorem getAllModules_length (db : DB) :
    (getAllModules db).length = db.rows.length := by
  simp [getAllModules, sortRowsDesc,
    (List.perm_insertionSort byCreatedDesc db.rows).length_eq]

theorem isDatabaseEmpty_eq (db : DB) :
    isDatabaseEmpty db = (db.rows.length == 0) := by
  simp [isDatabaseEmpty, getAllModules_length]

/-- A failing creation stops the seeding loop; whatever rows the loop
managed to create up to that point are appended to the store, and the
rows that were there before are untouched. -/
theorem seedLoop_error_extends (mods : List ModuleData) :
    ∀ (db : DB) (clock : Nat → Nat) (i : Nat) (e : String) (db'' : DB),
      seedLoop db mods clock i = (.error e, db'') →
      ∃ t, db''.rows = db.rows ++ t := by
  induction mods with
  | nil =>
    intro db clock i e db'' h
    simp [seedLoop] at h
  | cons m rest ih =>
    intro db clock i e db'' h
    unfold seedLoop at h
    rcases hc : createModule db m (clock i) with ⟨res, dbf⟩
    have hsnd : (createModule db m (clock i)).2 = dbf := by rw [hc]
    have hdbf : ∃ t, dbf.rows = db.rows ++ t := by
      rcases createModule_snd db m (clock i) with h2 | h2 <;> rw [hsnd] at h2
      · exact ⟨[], by rw [h2, List.append_nil]⟩
      · exact ⟨[newRow db m (clock i)], by rw [h2]⟩
    rw [hc] at h
    cases res with
    | error e' =>
      simp at h
      obtain ⟨-, rfl⟩ := h
      exact hdbf
    | ok cm =>
      simp only at h
      rcases hloop : seedLoop dbf rest clock (i + 1) with ⟨res', db2⟩
      rw [hloop] at h
      cases res' with
      | error e2 =>
        simp at h
        obtain ⟨-, rfl⟩ := h
        obtain ⟨t1, ht1⟩ := hdbf
        obtain ⟨t2, ht2⟩ := ih dbf clock (i + 1) e2 db2 hloop
        exact ⟨t1 ++ t2, by rw [ht2, ht1, List.append_assoc]⟩
      | ok cms => simp at h

/-- The first module whose validation fails rejects the loop at once,
with the store exactly as it was. -/
theorem seedLoop_head_invalid (db : DB) (m : ModuleData) (rest : List ModuleData)
    (clock : Nat → Nat) (i : Nat) (e : String)
    (hv : validateModuleData m = some e) :
    seedLoop db (m :: rest) clock i = (.error e, db) := by
  unfold seedLoop
  rw [createModule_validate_error db m (clock i) e hv]

/-- A loop over valid module data on a well-formed store succeeds,
creates one row per module, and keeps the store well-formed. -/
theorem seedLoop_ok (mods : List ModuleData) :
    ∀ (db : DB) (clock : Nat → Nat) (i : Nat), db.WF →
      (∀ m ∈ mods, validateModuleData m = none) →
      ∃ ms db', seedLoop db mods clock i = (.ok ms, db') ∧
        ms.length = mods.length ∧
        db'.rows.length = db.rows.length + mods.length ∧ db'.WF := by
  induction mods with
  | nil =>
    intro db clock i hwf _
    exact ⟨[], db, rfl, rfl, by simp, hwf⟩
  | cons m rest ih =>
    intro db clock i hwf hval
    have hv : validateModuleData m = none := hval m (List.mem_cons_self m rest)
    have hc := createModule_ok db m (clock i) hwf hv
    have hwf1 : (⟨db.rows ++ [newRow db m (clock i)], db.nextId + 1⟩ : DB).WF := by
      have := WF_createModule db m (clock i) hwf
      rwa [hc] at this
    obtain ⟨ms, db', hloop, hlen, hrows, hwf'⟩ :=
      ih ⟨db.rows ++ [newRow db m (clock i)], db.nextId + 1⟩ clock (i + 1) hwf1
        (fun m' hm' => hval m' (List.mem_cons_of_mem m hm'))
    refine ⟨rowToModule (newRow db m (clock i)) :: ms, db', ?_, by simp [hlen], ?_, hwf'⟩
    · unfold seedLoop
      rw [hc]
      simp [hloop]
    · rw [hrows]
      simp
      omega

/-- Seeding skips entirely when the store is not empty. -/
theorem seedDatabase_not_empty (db : DB) (clock : Nat → Nat)
    (h : isDatabaseEmpty db = false) :
    seedDatabase db clock = (.ok [], db) := by
  simp [seedDatabase, h]

/-- A no-op seeding stays a no-op under iteration. -/
theorem seedIter_not_empty (db : DB) (clock : Nat → Nat)
    (h : isDatabaseEmpty db = false) :
    ∀ n, seedIter clock db n = db := by
  intro n
  induction n with
  | zero => rfl
  | succ k ihk =>
    show seedIter clock (seedDatabase db clock).2 k = db
    rw [seedDatabase_not_empty db clock h]
    exact ihk

/-! ### String inclusion facts for the HTTP error classification -/

theorem jsIncludes_append_notFound (pre : String) :
    jsIncludes (pre ++ " not found") "not found" = true := by
  apply decide_eq_true
  refine ⟨pre.data ++ [' '], [], ?_⟩
  rw [List.append_nil, String.data_append, List.append_assoc]
  rfl

theorem classifyRepoError_notFound (pre fallback : String) :
    classifyRepoError (pre ++ " not found") fallback =
      (404, pre ++ " not found") := by
  unfold classifyRepoError
  rw [jsIncludes_append_notFound]
  simp

/-- On a positive id, the repository delete can only reject with the
not-found message or the zero-rows-affected message. -/
theorem deleteModule_error_cases (db : DB) (i : Int) (hi : 0 < i) (e : String)
    (h : (deleteModule db i).1 = .error e) :
    e = "Module with ID " ++ toString i ++ " not found" ∨
      e = "Module deletion failed - no rows affected" := by
  unfold deleteModule at h
  rw [if_neg (not_le.mpr hi)] at h
  cases hfind : db.rows.find? (fun r => r.id == i) with
  | none =>
    rw [hfind] at h
    simp at h
    exact Or.inl h.symm
  | some r0 =>
    rw [hfind] at h
    unfold deleteOutcome at h
    dsimp only at h
    by_cases hch : db.rows.length - (db.rows.filter (fun r => !(r.id == i))).length = 0
    · rw [if_pos hch] at h
      simp at h
      exact Or.inr h.symm
    · rw [if_neg hch] at h
      simp at h

/-! ### Claims -/

/-- C1: for every successful update of a module, the returned entity's
`updatedAt` is strictly greater than its value before the update
(`updated_at` is reset to the current time, which is later than the old
stamp), while `createdAt` and `id` are exactly the values the module
had before; moreover the update statement writes only the seven content
columns and `updated_at`, so the `(id, created_at)` pairs of every row
of the store are unchanged. -/
theorem C1_update_bumps_only_updatedAt
    (db : DB) (id : Int) (d : ModuleData) (now : Nat) (r0 : ModuleRow)
    (m : Module) (db' : DB)
    (hid : 0 < id)
    (hfind : db.rows.find? (fun r => r.id == id) = some r0)
    (hv : validateModuleData d = none)
    (hnow : r0.updated_at < now)
    (hupd : updateModule db id d now = (.ok m, db')) :
    r0.updated_at < m.updatedAt ∧ m.createdAt = r0.created_at ∧ m.id = r0.id ∧
      db'.rows.map (fun r => (r.id, r.created_at)) =
        db.rows.map (fun r => (r.id, r.created_at)) := by
  rw [updateModule_ok db id d now r0 hid hv hfind] at hupd
  have hm : m = rowToModule (updRow d now r0) := by
    have := congrArg Prod.fst hupd
    simpa using this.symm
  have hdb : db' = ⟨db.rows.map (updRowIf id d now), db.nextId⟩ := by
    have := congrArg Prod.snd hupd
    simpa using this.symm
  subst hm
  subst hdb
  refine ⟨hnow, rfl, rfl, ?_⟩
  show (db.rows.map (updRowIf id d now)).map (fun r => (r.id, r.created_at)) = _
  rw [List.map_map]
  refine List.map_congr_left (fun r _ => ?_)
  show ((updRowIf id d now r).id, (updRowIf id d now r).created_at) = (r.id, r.created_at)
  unfold updRowIf updRow
  split <;> rfl

theorem C1_witness :
    c1row.updated_at < c1res.updatedAt ∧ c1res.createdAt = c1row.created_at ∧
      c1res.id = c1row.id ∧
      c1db2.rows.map (fun r => (r.id, r.created_at)) =
        c1db.rows.map (fun r => (r.id, r.created_at)) :=
  C1_update_bumps_only_updatedAt c1db 1 c1upd 5 c1row c1res c1db2
    (by decide) (by decide) (by decide) (by decide) (by rfl)

/-- C2: creation and update validate the payload in the fixed order
prompt, English name, Kannada name, each non-empty after trimming; the
first violated check rejects with the error naming that field, and the
store is returned untouched (no storage statement has been issued).
The second and third conjuncts put no condition on the later fields, so
an earlier failure wins even when later fields are also empty. -/
theorem C2_validation_order (db : DB) (d : ModuleData) (now : Nat) (id : Int) :
    (jsTrim d.prompt = "" →
      createModule db d now = (.error "Module prompt is required", db)) ∧
    (jsTrim d.prompt ≠ "" → jsTrim d.en.name = "" →
      createModule db d now = (.error "English name is required", db)) ∧
    (jsTrim d.prompt ≠ "" → jsTrim d.en.name ≠ "" → jsTrim d.kn.name = "" →
      createModule db d now = (.error "Kannada name is required", db)) ∧
    (0 < id → jsTrim d.prompt = "" →
      updateModule db id d now = (.error "Module prompt is required", db)) ∧
    (0 < id → jsTrim d.prompt ≠ "" → jsTrim d.en.name = "" →
      updateModule db id d now = (.error "English name is required", db)) ∧
    (0 < id → jsTrim d.prompt ≠ "" → jsTrim d.en.name ≠ "" → jsTrim d.kn.name = "" →
      updateModule db id d now = (.error "Kannada name is required", db)) := by
  refine ⟨?_, ?_, ?_, ?_, ?_, ?_⟩
  · intro hp
    exact createModule_validate_error db d now _ (by simp [validateModuleData, hp])
  · intro hp he
    exact createModule_validate_error db d now _ (by simp [validateModuleData, hp, he])
  · intro hp he hk
    exact createModule_validate_error db d now _ (by simp [validateModuleData, hp, he, hk])
  · intro hid hp
    simp [updateModule, not_le.mpr hid, validateModuleData, hp]
  · intro hid hp he
    simp [updateModule, not_le.mpr hid, validateModuleData, hp, he]
  · intro hid hp he hk
    simp [updateModule, not_le.mpr hid, validateModuleData, hp, he, hk]

theorem C2_witness :
    createModule emptyDB ⟨"", ⟨"", none, none⟩, ⟨"", none, none⟩⟩ 0 =
      (.error "Module prompt is required", emptyDB) ∧
    createModule emptyDB ⟨"p", ⟨" ", none, none⟩, ⟨"", none, none⟩⟩ 0 =
      (.error "English name is required", emptyDB) ∧
    createModule emptyDB ⟨"p", ⟨"e", none, none⟩, ⟨"", none, none⟩⟩ 0 =
      (.error "Kannada name is required", emptyDB) ∧
    updateModule c1db 1 ⟨"", ⟨"", none, none⟩, ⟨"", none, none⟩⟩ 9 =
      (.error "Module prompt is required", c1db) ∧
    updateModule c1db 1 ⟨"p", ⟨"", none, none⟩, ⟨"", none, none⟩⟩ 9 =
      (.error "English name is required", c1db) ∧
    updateModule c1db 1 ⟨"p", ⟨"e", none, none⟩, ⟨" ", none, none⟩⟩ 9 =
      (.error "Kannada name is required", c1db) :=
  ⟨(C2_validation_order emptyDB _ 0 1).1 (by decide),
   (C2_validation_order emptyDB _ 0 1).2.1 (by decide) (by decide),
   (C2_validation_order emptyDB _ 0 1).2.2.1 (by decide) (by decide) (by decide),
   (C2_validation_order c1db _ 9 1).2.2.2.1 (by decide) (by decide),
   (C2_validation_order c1db _ 9 1).2.2.2.2.1 (by decide) (by decide) (by decide),
   (C2_validation_order c1db _ 9 1).2.2.2.2.2 (by decide) (by decide) (by decide) (by decide)⟩

/-- C3: seeding is idempotent through the emptiness check: on a
non-empty store it performs no create and resolves an empty list; on an
empty well-formed store it creates exactly the 3 defaults, after which
any number of further runs leaves the store untouched (so the count
stays 3); and inside the creation loop a failing creation stops the
loop at once, propagates the rejection, and leaves every row created
before the failure (and everything older) in place. -/
theorem C3_seed_idempotent :
    (∀ (db : DB) (clock : Nat → Nat), isDatabaseEmpty db = false →
      seedDatabase db clock = (.ok [], db)) ∧
    (∀ (db : DB) (clock : Nat → Nat), isDatabaseEmpty db = true → db.WF →
      ∃ ms db', seedDatabase db clock = (.ok ms, db') ∧ ms.length = 3 ∧
        db'.rows.length = 3 ∧ ∀ (clock2 : Nat → Nat) (n : Nat), seedIter clock2 db' n = db') ∧
    (∀ (db : DB) (mods : List ModuleData) (clock : Nat → Nat) (i : Nat)
        (e : String) (db'' : DB),
      seedLoop db mods clock i = (.error e, db'') → ∃ t, db''.rows = db.rows ++ t) ∧
    (∀ (db : DB) (m : ModuleData) (rest : List ModuleData) (clock : Nat → Nat)
        (i : Nat) (e : String), validateModuleData m = some e →
      seedLoop db (m :: rest) clock i = (.error e, db)) := by
  refine ⟨seedDatabase_not_empty, ?_,
    fun db mods => seedLoop_error_extends mods db, ?_⟩
  · intro db clock hempty hwf
    have hlen : db.rows.length = 0 := by
      rw [isDatabaseEmpty_eq] at hempty
      simpa using hempty
    have hval : ∀ m ∈ defaultModules, validateModuleData m = none := by decide
    obtain ⟨ms, db', hloop, hms, hrows, -⟩ := seedLoop_ok defaultModules db clock 0 hwf hval
    refine ⟨ms, db', ?_, by simpa using hms, ?_, ?_⟩
    · simp [seedDatabase, hempty, hloop]
    · rw [hrows, hlen]
      rfl
    · intro clock2 n
      apply seedIter_not_empty
      rw [isDatabaseEmpty_eq, hrows, hlen]
      rfl
  · intro db m rest clock i e hv
    exact seedLoop_head_invalid db m rest clock i e hv

theorem C3_witness :
    seedDatabase seededDB seedClock = (.ok [], seededDB) ∧
    seedLoop emptyDB [⟨"", ⟨"a", none, none⟩, ⟨"b", none, none⟩⟩] seedClock 0 =
      (.error "Module prompt is required", emptyDB) :=
  ⟨C3_seed_idempotent.1 seededDB seedClock (by decide),
   C3_seed_idempotent.2.2.2 emptyDB _ [] seedClock 0 _ (by decide)⟩

/-- C4 counterexample: creating with prompt `" x "` and reading the
entity back yields prompt `"x"`, not the input prompt — the repository
trims prompt and names before inserting, so the round-trip is not the
identity on `prompt` as the claim states. -/
theorem C4_counterexample :
    Except.map (fun m => m.prompt) (createModule emptyDB c4input 0).1 =
      .ok "x" ∧ c4input.prompt ≠ "x" :=
  ⟨rfl, by decide⟩

/-- C4 (amended): for every accepted input, the created entity — and
its read-back through `getModuleById` — carries the trimmed prompt and
names, with absent or empty optional fields normalized to null; the
round-trip is the identity on prompt and names exactly when they carry
no surrounding whitespace. -/
theorem C4_roundtrip_modulo_trim (db db' : DB) (d : ModuleData) (now : Nat)
    (m : Module) (hwf : db.WF) (hv : validateModuleData d = none)
    (h : createModule db d now = (.ok m, db')) :
    m.prompt = jsTrim d.prompt ∧
    m.en = ⟨jsTrim d.en.name, jsOrNull d.en.description, jsOrNull d.en.inputPlaceholder⟩ ∧
    m.kn = ⟨jsTrim d.kn.name, jsOrNull d.kn.description, jsOrNull d.kn.inputPlaceholder⟩ ∧
    getModuleById db' m.id = .ok (some m) ∧
    (jsTrim d.prompt = d.prompt → jsTrim d.en.name = d.en.name →
      jsTrim d.kn.name = d.kn.name →
      m.prompt = d.prompt ∧ m.en.name = d.en.name ∧ m.kn.name = d.kn.name) := by
  rw [createModule_ok db d now hwf hv] at h
  have hm : m = rowToModule (newRow db d now) := by
    have := congrArg Prod.fst h
    simpa using this.symm
  have hdb : db' = ⟨db.rows ++ [newRow db d now], db.nextId + 1⟩ := by
    have := congrArg Prod.snd h
    simpa using this.symm
  subst hm
  subst hdb
  refine ⟨rfl, rfl, rfl, ?_, ?_⟩
  · show getModuleById _ (newRow db d now).id = _
    unfold getModuleById
    have hneg : ¬ (newRow db d now).id ≤ 0 := not_le.mpr hwf.1
    rw [if_neg hneg]
    have hrows : (⟨db.rows ++ [newRow db d now], db.nextId + 1⟩ : DB).rows =
        db.rows ++ [newRow db d now] := rfl
    rw [hrows, find?_append_newRow db d now hwf]
    rfl
  · intro h1 h2 h3
    exact ⟨h1, h2, h3⟩

theorem C4_witness :
    c4m.prompt = jsTrim c4wit.prompt ∧
    c4m.en = ⟨jsTrim c4wit.en.name, jsOrNull c4wit.en.description,
      jsOrNull c4wit.en.inputPlaceholder⟩ ∧
    c4m.kn = ⟨jsTrim c4wit.kn.name, jsOrNull c4wit.kn.description,
      jsOrNull c4wit.kn.inputPlaceholder⟩ ∧
    getModuleById c4db c4m.id = .ok (some c4m) := by
  have h := C4_roundtrip_modulo_trim emptyDB c4db c4wit 0 c4m
    (by decide) (by decide) (by rfl)
  exact ⟨h.1, h.2.1, h.2.2.1, h.2.2.2.1⟩

/-- C5: `getAllModules` lists every module of the store ordered by
creation time descending (a permutation of the mapped rows, pairwise
newest-first), and on the freshly seeded, never-touched store it
returns exactly the three fixed default modules in reverse order of
their creation (ids 3, 2, 1, created at times 2, 1, 0). -/
theorem C5_list_newest_first :
    (∀ db : DB,
      (getAllModules db).Pairwise (fun a b => b.createdAt ≤ a.createdAt) ∧
      (getAllModules db).Perm (db.rows.map rowToModule)) ∧
    seeded.1 = .ok seededModules ∧
    getAllModules seededDB = seededModules.reverse ∧
    seededModules.map (fun m => (m.prompt, m.en.name, m.kn.name)) =
      defaultModules.map (fun d => (d.prompt, d.en.name, d.kn.name)) ∧
    seededModules.map (fun m => m.id) = [1, 2, 3] ∧
    seededModules.map (fun m => m.createdAt) = [0, 1, 2] := by
  refine ⟨?_, rfl, by decide, by decide, by decide, by decide⟩
  intro db
  constructor
  · have hs : (sortRowsDesc db.rows).Pairwise byCreatedDesc :=
      List.sorted_insertionSort byCreatedDesc db.rows
    exact List.Pairwise.map rowToModule (fun a b hab => hab) hs
  · exact (List.perm_insertionSort byCreatedDesc db.rows).map rowToModule

/-- C6: deleting a positive id with no matching row rejects with the
not-found message before any DELETE statement (the store is returned
untouched), and the HTTP layer maps that message to 404; while the
zero-affected-rows outcome after a passed existence check rejects with
the distinct deletion-failed message, which contains neither
"not found" nor "required" and is therefore mapped to 500 with the
sanitized fallback text. -/
theorem C6_delete_not_found_vs_ineffective (db : DB) (id : Int)
    (hid : 0 < id)
    (habsent : db.rows.find? (fun r => r.id == id) = none) :
    deleteModule db id =
      (.error ("Module with ID " ++ toString id ++ " not found"), db) ∧
    classifyRepoError ("Module with ID " ++ toString id ++ " not found")
        "Failed to delete module" =
      (404, "Module with ID " ++ toString id ++ " not found") ∧
    deleteOutcome 0 = .error "Module deletion failed - no rows affected" ∧
    jsIncludes "Module deletion failed - no rows affected" "not found" = false ∧
    jsIncludes "Module deletion failed - no rows affected" "required" = false ∧
    classifyRepoError "Module deletion failed - no rows affected"
        "Failed to delete module" = (500, "Failed to delete module") := by
  refine ⟨?_, ?_, rfl, by decide, by decide, by decide⟩
  · unfold deleteModule
    rw [if_neg (not_le.mpr hid), habsent]
  · exact classifyRepoError_notFound ("Module with ID " ++ toString id)
      "Failed to delete module"

theorem C6_witness :
    deleteModule emptyDB 5 =
      (.error "Module with ID 5 not found", emptyDB) ∧
    classifyRepoError "Module with ID 5 not found" "Failed to delete module" =
      (404, "Module with ID 5 not found") := by
  have h := C6_delete_not_found_vs_ineffective emptyDB 5 (by decide) (by rfl)
  exact ⟨h.1, h.2.1⟩

/-- C7: every valid creation returns a positive id never issued to any
previously created module (ids are store-assigned from a counter that
only grows across creates, updates and deletes), and its `createdAt`
equals its `updatedAt` (both columns are defaulted to the current
timestamp by the same insert). -/
theorem C7_create_fresh_positive_id
    (db0 db1 db db' : DB) (d0 d : ModuleData) (now0 now : Nat) (m0 m : Module)
    (hwf : db0.WF)
    (h0 : createModule db0 d0 now0 = (.ok m0, db1))
    (hreach : Reachable db1 db)
    (h : createModule db d now = (.ok m, db')) :
    0 < m.id ∧ m.createdAt = m.updatedAt ∧ m0.id < m.id := by
  have h0' := h0
  cases hv0 : validateModuleData d0 with
  | some e =>
    rw [createModule_validate_error db0 d0 now0 e hv0] at h0
    simp at h0
  | none =>
    rw [createModule_ok db0 d0 now0 hwf hv0] at h0
    have hm0 : m0 = rowToModule (newRow db0 d0 now0) := by
      have := congrArg Prod.fst h0
      simpa using this.symm
    have hdb1 : db1 = ⟨db0.rows ++ [newRow db0 d0 now0], db0.nextId + 1⟩ := by
      have := congrArg Prod.snd h0
      simpa using this.symm
    have hwf1 : db1.WF := by
      have hw := WF_createModule db0 d0 now0 hwf
      rw [h0'] at hw
      exact hw
    obtain ⟨hwfdb, hle⟩ := reachable_wf_nextId hreach hwf1
    have hle' : db0.nextId + 1 ≤ db.nextId := by
      rw [hdb1] at hle
      exact hle
    cases hv : validateModuleData d with
    | some e =>
      rw [createModule_validate_error db d now e hv] at h
      simp at h
    | none =>
      rw [createModule_ok db d now hwfdb hv] at h
      have hm : m = rowToModule (newRow db d now) := by
        have := congrArg Prod.fst h
        simpa using this.symm
      subst hm
      subst hm0
      refine ⟨hwfdb.1, rfl, ?_⟩
      show db0.nextId < db.nextId
      omega

theorem C7_witness :
    0 < c7m.id ∧ c7m.createdAt = c7m.updatedAt ∧ c7m0.id < c7m.id :=
  C7_create_fresh_positive_id emptyDB c1db c1db (createModule c1db c1upd 3).2
    c1d0 c1upd 0 3 c7m0 c7m (by decide) (by rfl)
    (show Reachable c1db c1db from Relation.ReflTransGen.refl) (by rfl)

/-- C8 counterexample: an HTTP 200 response whose envelope has
`success:false` and no `error` field produces the failure message
"API request failed" with status 200 — a message that is neither the
(absent) envelope error nor the HTTP status line, contradicting the
claim that server-response failures always carry one of those two. -/
theorem C8_counterexample :
    apiRequest (α := Unit) (.response 200 "OK" ⟨false, none, none⟩) =
      .error ⟨"API request failed", 200⟩ ∧
    "API request failed" ≠ "HTTP 200: OK" ∧
    (⟨false, none, none⟩ : Envelope Unit).error = none :=
  ⟨rfl, by decide, rfl⟩

/-- C8 (amended): a transport-level failure produces the `ApiError`
with status 0 and the fixed network message, and every failure built
from a server response carries the response's real HTTP status (hence,
status being at least 100, a `(message, status)` pair distinct from the
network one); its message is the envelope's non-empty `error` if any,
otherwise the `HTTP <status>: <statusText>` line for a non-ok status,
or the fixed text "API request failed" for an ok status whose envelope
has `success:false`. -/
theorem C8_network_failure_distinct (α : Type) (status : Nat)
    (statusText : String) (body : Envelope α) (e : ApiFailure)
    (hstatus : 100 ≤ status)
    (h : apiRequest (.response status statusText body) = .error e) :
    apiRequest (α := α) .networkFailure = .error ⟨networkErrorMessage, 0⟩ ∧
    e.status = status ∧ e.status ≠ 0 ∧ e ≠ ⟨networkErrorMessage, 0⟩ ∧
    e.message = jsOrString body.error
      (if 200 ≤ status ∧ status < 300 then "API request failed"
       else "HTTP " ++ toString status ++ ": " ++ statusText) := by
  simp only [apiRequest] at h
  by_cases hok : 200 ≤ status ∧ status < 300
  · by_cases hsucc : body.success = true
    · rw [if_pos hok, if_pos hsucc] at h
      simp at h
    · rw [if_pos hok, if_neg hsucc] at h
      have he : e = ⟨jsOrString body.error "API request failed", status⟩ :=
        (Except.error.inj h).symm
      subst he
      refine ⟨rfl, rfl, show status ≠ 0 by omega, ?_, by rw [if_pos hok]⟩
      intro hc
      have := congrArg ApiFailure.status hc
      simp at this
      omega
  · rw [if_neg hok] at h
    have he : e = ⟨jsOrString body.error
        ("HTTP " ++ toString status ++ ": " ++ statusText), status⟩ :=
      (Except.error.inj h).symm
    subst he
    refine ⟨rfl, rfl, show status ≠ 0 by omega, ?_, by rw [if_neg hok]⟩
    intro hc
    have := congrArg ApiFailure.status hc
    simp at this
    omega

theorem C8_witness :
    apiRequest (α := Unit) .networkFailure = .error ⟨networkErrorMessage, 0⟩ ∧
    (⟨"HTTP 404: Not Found", 404⟩ : ApiFailure).status = 404 ∧
    (⟨"HTTP 404: Not Found", 404⟩ : ApiFailure) ≠ ⟨networkErrorMessage, 0⟩ := by
  have h := C8_network_failure_distinct Unit 404 "Not Found" ⟨false, none, none⟩
    ⟨"HTTP 404: Not Found", 404⟩ (by decide) (by rfl)
  exact ⟨h.1, h.2.1, h.2.2.2.1⟩

/-- C9 counterexample: for an empty prompt the client rejects with
"Prompt is required" while the repository rejects with
"Module prompt is required" — the locally produced message is not the
message the server would return for that input. -/
theorem C9_counterexample :
    clientValidateCreate ⟨"", ⟨"a", none, none⟩, ⟨"b", none, none⟩⟩ =
      some ⟨"Prompt is required", 400⟩ ∧
    validateModuleData ⟨"", ⟨"a", none, none⟩, ⟨"b", none, none⟩⟩ =
      some "Module prompt is required" ∧
    "Prompt is required" ≠ "Module prompt is required" := by
  refine ⟨rfl, rfl, by decide⟩

/-- C9 (amended): the client's pre-flight validation checks the same
fields in the same priority order as the repository (id first on
update, then prompt, English name, Kannada name) and accepts exactly
the inputs the repository accepts; the id and name messages coincide
with the server's, but a missing prompt is reported locally as
"Prompt is required" where the server reports
"Module prompt is required". -/
theorem C9_client_mirrors_server (id : Int) (d : ModuleData) :
    ((clientValidateCreate d = none) ↔ (validateModuleData d = none)) ∧
    (jsTrim d.prompt = "" →
      clientValidateCreate d = some ⟨"Prompt is required", 400⟩ ∧
      validateModuleData d = some "Module prompt is required") ∧
    (jsTrim d.prompt ≠ "" →
      (clientValidateCreate d).map (fun a => a.message) = validateModuleData d) ∧
    (id ≤ 0 →
      clientValidateUpdate id d = some ⟨"Valid module ID is required", 400⟩ ∧
      ∀ (db : DB) (now : Nat),
        updateModule db id d now = (.error "Valid module ID is required", db)) ∧
    (0 < id → clientValidateUpdate id d = clientValidateCreate d) := by
  refine ⟨?_, ?_, ?_, ?_, ?_⟩
  · unfold clientValidateCreate validateModuleData
    split_ifs <;> simp
  · intro hp
    exact ⟨by simp [clientValidateCreate, hp], by simp [validateModuleData, hp]⟩
  · intro hp
    unfold clientValidateCreate validateModuleData
    rw [if_neg hp, if_neg hp]
    split_ifs <;> rfl
  · intro hid
    refine ⟨by simp [clientValidateUpdate, hid], ?_⟩
    intro db now
    simp [updateModule, hid]
  · intro hid
    unfold clientValidateUpdate clientValidateCreate
    rw [if_neg (not_le.mpr hid)]

theorem C9_witness :
    (clientValidateCreate d9).map (fun a => a.message) = validateModuleData d9 ∧
    clientValidateUpdate (-1) d9 = some ⟨"Valid module ID is required", 400⟩ ∧
    updateModule emptyDB (-1) d9 7 =
      (.error "Valid module ID is required", emptyDB) ∧
    clientValidateUpdate 2 d9 = clientValidateCreate d9 := by
  have h1 := C9_client_mirrors_server (-1) d9
  have h2 := C9_client_mirrors_server 2 d9
  exact ⟨h1.2.2.1 (by decide), (h1.2.2.2.1 (by decide)).1,
    (h1.2.2.2.1 (by decide)).2 emptyDB 7, h2.2.2.2.2 (by decide)⟩

/-- C10: the PUT and DELETE handlers parse the `:id` path parameter
with `parseInt` and reject with the 400 bad-id response exactly when
the result is NaN or non-positive; a string with a positive numeric
prefix followed by other characters ("5abc", "5.9") is therefore not
rejected and the operation is performed on the truncated integer id
(here: deleting and updating module 5 of a store that holds it), even
though the repository's own id gate, handed the raw string, would have
rejected it as a non-integer. -/
theorem C10_parseInt_gate :
    (∀ (db : DB) (s : String) (i : Int), jsParseInt s = some i → 0 < i →
      deleteHandler db s = deleteRespond db i ∧
      ∀ (body : Option ModuleData) (now : Nat),
        putHandler db s body now = putRespond db i body now) ∧
    (∀ (db : DB) (s : String), (deleteHandler db s).1 = badIdResult ↔
      (jsParseInt s = none ∨ ∃ i, jsParseInt s = some i ∧ i ≤ 0)) ∧
    jsParseInt "5abc" = some 5 ∧ jsParseInt "5.9" = some 5 ∧
    jsParseInt "abc" = none ∧
    deleteHandler db10 "5abc" =
      (⟨200, true, none, none, some "Module deleted successfully"⟩, ⟨[], 6⟩) ∧
    putHandler db10 "5.9" (some d10) 7 =
      (⟨200, true, some (rowToModule (updRow d10 7 row5)), none, none⟩,
        ⟨[updRow d10 7 row5], 6⟩) ∧
    repoAcceptsIdString "5abc" = false ∧
    repoAcceptsIdString "5.9" = false ∧
    repoAcceptsIdString "5" = true := by
  refine ⟨?_, ?_, rfl, rfl, rfl, by rfl, by rfl, rfl, rfl, rfl⟩
  · intro db s i hparse hi
    constructor
    · simp only [deleteHandler, hparse]
      rw [if_neg (not_le.mpr hi)]
    · intro body now
      simp only [putHandler, hparse]
      rw [if_neg (not_le.mpr hi)]
  · intro db s
    constructor
    · intro hbad
      cases hparse : jsParseInt s with
      | none => exact Or.inl rfl
      | some i =>
        by_cases hile : i ≤ 0
        · exact Or.inr ⟨i, rfl, hile⟩
        · exfalso
          have hi : 0 < i := not_le.mp hile
          simp only [deleteHandler, hparse] at hbad
          rw [if_neg hile] at hbad
          unfold deleteRespond at hbad
          rcases hdel : deleteModule db i with ⟨res, dbx⟩
          rw [hdel] at hbad
          cases res with
          | ok b => simp [badIdResult] at hbad
          | error e =>
            have he := deleteModule_error_cases db i hi e (by rw [hdel])
            rcases he with he | he
            · subst he
              dsimp only at hbad
              rw [classifyRepoError_notFound ("Module with ID " ++ toString i)
                "Failed to delete module"] at hbad
              simp [badIdResult] at hbad
            · subst he
              dsimp only at hbad
              have hcl : classifyRepoError "Module deletion failed - no rows affected"
                  "Failed to delete module" = (500, "Failed to delete module") := by decide
              rw [hcl] at hbad
              simp [badIdResult] at hbad
    · intro hcond
      rcases hcond with hnone | ⟨i, hsome, hle⟩
      · simp only [deleteHandler, hnone]
      · simp only [deleteHandler, hsome]
        rw [if_pos hle]

theorem C10_witness :
    deleteHandler db10 "5abc" = deleteRespond db10 5 ∧
    (deleteHandler db10 "abc").1 = badIdResult ∧
    (deleteHandler db10 "-3").1 = badIdResult := by
  have h := C10_parseInt_gate
  refine ⟨(h.1 db10 "5abc" 5 (by rfl) (by decide)).1, ?_, ?_⟩
  · exact (h.2.1 db10 "abc").mpr (Or.inl (by rfl))
  · exact (h.2.1 db10 "-3").mpr (Or.inr ⟨-3, by rfl, by decide⟩)

end EasyWay
